import Mathlib

/-!
Shallow embedding of the `terminal-utils` crate (src/lib.rs, src/unix.rs,
src/windows.rs).

The terminal device is modelled by explicit state passing: the POSIX driver
carries a `Termios` attribute record, the Windows driver a console mode
bitmask (a `Nat` holding a u32).  System calls that can fail (opening
`/dev/tty` or `CONIN$`/`CONOUT$`, `tcgetattr`/`tcsetattr`,
`GetConsoleMode`/`SetConsoleMode`, the winsize ioctl,
`GetConsoleScreenBufferInfo`, signal subscription) are modelled by an
environment record of success flags plus the data the call would return; a
driver operation returns an `Except Unit` result together with the terminal
state after the call.  The tokio `watch` channel is modelled by its value, a
version counter bumped on every notifying send, and a live receiver count;
a receiver holds the version it has last seen.
-/

namespace TerminalUtils

/-- `TerminalSize` from src/lib.rs: four u16 fields. -/
structure TerminalSize where
  width : Nat
  height : Nat
  pixel_width : Nat
  pixel_height : Nat
deriving DecidableEq, Repr

namespace Unix

/-- `libc::termios`: input/output/control/local flags (u32 each), control
characters, input and output speeds. -/
structure Termios where
  c_iflag : Nat
  c_oflag : Nat
  c_cflag : Nat
  c_lflag : Nat
  c_cc : List Nat
  c_ispeed : Nat
  c_ospeed : Nat
deriving DecidableEq, Repr

/-- `libc::winsize`: rows, columns, pixel width, pixel height (u16 each). -/
structure Winsize where
  ws_row : Nat
  ws_col : Nat
  ws_xpixel : Nat
  ws_ypixel : Nat
deriving DecidableEq, Repr

/-- `pub struct TerminalState(libc::termios)` from src/unix.rs. -/
structure TerminalState where
  termios : Termios
deriving DecidableEq, Repr

def IGNBRK : Nat := 1
def BRKINT : Nat := 2
def PARMRK : Nat := 8
def ISTRIP : Nat := 32
def INLCR : Nat := 64
def IGNCR : Nat := 128
def ICRNL : Nat := 256
def IXON : Nat := 1024
def OPOST : Nat := 1
def ECHO : Nat := 8
def ECHONL : Nat := 64
def ICANON : Nat := 2
def ISIG : Nat := 1
def IEXTEN : Nat := 32768
def CSIZE : Nat := 48
def PARENB : Nat := 256
def CS8 : Nat := 48
def VTIME : Nat := 5
def VMIN : Nat := 6

/-- Two's-complement `!x` on a u32 flag word. -/
def complement32 (m : Nat) : Nat := m ^^^ 4294967295

/-- `libc::cfmakeraw` (glibc): clear the input-translation, output-processing
and local-echo/canonical/signal flags, force 8-bit characters, and set
VMIN := 1, VTIME := 0. -/
def cfmakeraw (t : Termios) : Termios :=
  { t with
    c_iflag := t.c_iflag &&&
      complement32 (IGNBRK ||| BRKINT ||| PARMRK ||| ISTRIP ||| INLCR ||| IGNCR ||| ICRNL ||| IXON),
    c_oflag := t.c_oflag &&& complement32 OPOST,
    c_lflag := t.c_lflag &&& complement32 (ECHO ||| ECHONL ||| ICANON ||| ISIG ||| IEXTEN),
    c_cflag := (t.c_cflag &&& complement32 (CSIZE ||| PARENB)) ||| CS8,
    c_cc := (t.c_cc.set VMIN 1).set VTIME 0 }

/-- Outcome flags and returned data of the POSIX system calls used by the
driver: whether `/dev/tty` opens, whether the TIOCGWINSZ ioctl, `tcgetattr`
and `tcsetattr` succeed, and the winsize the ioctl would report. -/
structure SysEnv where
  ttyOk : Bool
  winszOk : Bool
  getAttrOk : Bool
  setAttrOk : Bool
  winsz : Winsize
deriving Repr

/-- src/unix.rs `size`: open `/dev/tty`, query the winsize ioctl, and map
columns/rows/x-pixels/y-pixels into a `TerminalSize`. -/
def size (env : SysEnv) : Except Unit TerminalSize :=
  if env.ttyOk = true then
    if env.winszOk = true then
      Except.ok
        ⟨env.winsz.ws_col, env.winsz.ws_row, env.winsz.ws_xpixel, env.winsz.ws_ypixel⟩
    else Except.error ()
  else Except.error ()

/-- The predicate src/unix.rs `is_raw_mode_enabled` evaluates on the queried
attributes: the ICANON bit of `c_lflag` is clear. -/
def canonCleared (t : Termios) : Bool := decide ((t.c_lflag &&& ICANON) = 0)

/-- src/unix.rs `is_raw_mode_enabled`: open `/dev/tty`, read the attributes
(`t` is the terminal's current attribute state), and test ICANON. -/
def is_raw_mode_enabled (env : SysEnv) (t : Termios) : Except Unit Bool :=
  if env.ttyOk = true then
    if env.getAttrOk = true then Except.ok (canonCleared t)
    else Except.error ()
  else Except.error ()

/-- src/unix.rs `enable_raw_mode`: read the current attributes, keep a copy
as the restore token, apply `cfmakeraw`, and set the result.  Returns the
call's result paired with the terminal attribute state after the call. -/
def enable_raw_mode (env : SysEnv) (t : Termios) :
    Except Unit TerminalState × Termios :=
  if env.ttyOk = true then
    if env.getAttrOk = true then
      if env.setAttrOk = true then (Except.ok ⟨t⟩, cfmakeraw t)
      else (Except.error (), t)
    else (Except.error (), t)
  else (Except.error (), t)

/-- src/unix.rs `restore_mode`: re-open `/dev/tty` and apply the captured
attributes verbatim.  Returns the result paired with the terminal attribute
state after the call. -/
def restore_mode (env : SysEnv) (s : TerminalState) (t : Termios) :
    Except Unit Unit × Termios :=
  if env.ttyOk = true then
    if env.setAttrOk = true then (Except.ok (), s.termios)
    else (Except.error (), t)
  else (Except.error (), t)

end Unix

namespace Windows

/-- `CONSOLE_SCREEN_BUFFER_INFO.srWindow`: a `SMALL_RECT` of i16 fields. -/
structure SmallRect where
  Left : Int
  Top : Int
  Right : Int
  Bottom : Int
deriving DecidableEq, Repr

/-- `pub struct TerminalState(CONSOLE_MODE)` from src/windows.rs. -/
structure TerminalState where
  mode : Nat
deriving DecidableEq, Repr

def ENABLE_PROCESSED_INPUT : Nat := 1
def ENABLE_LINE_INPUT : Nat := 2
def ENABLE_ECHO_INPUT : Nat := 4
def ENABLE_WINDOW_INPUT : Nat := 8
def ENABLE_MOUSE_INPUT : Nat := 16
def ENABLE_INSERT_MODE : Nat := 32
def ENABLE_QUICK_EDIT_MODE : Nat := 64
def ENABLE_EXTENDED_FLAGS : Nat := 128
def ENABLE_VIRTUAL_TERMINAL_INPUT : Nat := 512

/-- src/windows.rs `RAW_MODE_MASK`. -/
def RAW_MODE_MASK : Nat :=
  ENABLE_EXTENDED_FLAGS ||| ENABLE_INSERT_MODE ||| ENABLE_QUICK_EDIT_MODE |||
    ENABLE_VIRTUAL_TERMINAL_INPUT

/-- src/windows.rs `NOT_RAW_MODE_MASK`. -/
def NOT_RAW_MODE_MASK : Nat :=
  ENABLE_LINE_INPUT ||| ENABLE_ECHO_INPUT ||| ENABLE_MOUSE_INPUT |||
    ENABLE_WINDOW_INPUT ||| ENABLE_PROCESSED_INPUT

/-- Two's-complement `!x` on a u32 console mode word. -/
def complement32 (m : Nat) : Nat := m ^^^ 4294967295

/-- Outcome flags and returned data of the Win32 calls used by the driver:
whether the `CONIN$` and `CONOUT$` handles open, whether
`GetConsoleMode`/`SetConsoleMode`/`GetConsoleScreenBufferInfo` succeed, and
the visible window rectangle the screen-buffer query would report. -/
structure SysEnv where
  conInOk : Bool
  conOutOk : Bool
  getModeOk : Bool
  setModeOk : Bool
  bufInfoOk : Bool
  srWindow : SmallRect
deriving Repr

/-- The Rust `as u16` cast applied to a small signed intermediate. -/
def asU16 (v : Int) : Nat := (v % 65536).toNat

/-- src/windows.rs `size`: open `CONOUT$`, query the screen buffer info, and
return `right - left + 1` by `bottom - top + 1`, with zero pixel fields. -/
def size (env : SysEnv) : Except Unit TerminalSize :=
  if env.conOutOk = true then
    if env.bufInfoOk = true then
      Except.ok
        ⟨asU16 (env.srWindow.Right - env.srWindow.Left + 1),
         asU16 (env.srWindow.Bottom - env.srWindow.Top + 1), 0, 0⟩
    else Except.error ()
  else Except.error ()

/-- The predicate src/windows.rs `is_raw_mode_enabled` evaluates on the
queried console mode: `mode & NOT_RAW_MODE_MASK == 0 && mode & RAW_MODE_MASK
== RAW_MODE_MASK`. -/
def rawModePredicate (m : Nat) : Bool :=
  decide (m &&& NOT_RAW_MODE_MASK = 0) && decide (m &&& RAW_MODE_MASK = RAW_MODE_MASK)

/-- src/windows.rs `is_raw_mode_enabled`: open `CONIN$`, read the mode
(`m` is the console's current mode), and evaluate the raw-mode predicate. -/
def is_raw_mode_enabled (env : SysEnv) (m : Nat) : Except Unit Bool :=
  if env.conInOk = true then
    if env.getModeOk = true then Except.ok (rawModePredicate m)
    else Except.error ()
  else Except.error ()

/-- The mode computed by src/windows.rs `enable_raw_mode`:
`original_mode & !NOT_RAW_MODE_MASK | RAW_MODE_MASK`. -/
def newModeOf (m : Nat) : Nat := m &&& complement32 NOT_RAW_MODE_MASK ||| RAW_MODE_MASK

/-- src/windows.rs `enable_raw_mode`: read the current mode, keep it as the
restore token, and set the computed raw mode.  Returns the result paired
with the console mode after the call. -/
def enable_raw_mode (env : SysEnv) (m : Nat) :
    Except Unit TerminalState × Nat :=
  if env.conInOk = true then
    if env.getModeOk = true then
      if env.setModeOk = true then (Except.ok ⟨m⟩, newModeOf m)
      else (Except.error (), m)
    else (Except.error (), m)
  else (Except.error (), m)

/-- src/windows.rs `restore_mode`: re-open `CONIN$` and apply the captured
mode verbatim.  Returns the result paired with the console mode after the
call. -/
def restore_mode (env : SysEnv) (s : TerminalState) (m : Nat) :
    Except Unit Unit × Nat :=
  if env.conInOk = true then
    if env.setModeOk = true then (Except.ok (), s.mode)
    else (Except.error (), m)
  else (Except.error (), m)

end Windows

/-- `RawModeGuard::drop` for the POSIX driver (src/lib.rs): one
`restore_mode` attempt with the captured state, its error discarded by
`let _ = ...`; the returned `Unit` is the only thing `drop` can yield. -/
def RawModeGuard.dropUnix (env : Unix.SysEnv) (g : Unix.TerminalState)
    (t : Unix.Termios) : Unit × Unix.Termios :=
  ((), (Unix.restore_mode env g t).2)

/-- `RawModeGuard::drop` for the Windows driver (src/lib.rs): one
`restore_mode` attempt with the captured state, its error discarded. -/
def RawModeGuard.dropWindows (env : Windows.SysEnv) (g : Windows.TerminalState)
    (m : Nat) : Unit × Nat :=
  ((), (Windows.restore_mode env g m).2)

/-- State of a `tokio::sync::watch` channel: current value, a version
counter advanced by every notifying send, and the number of live
receivers (`is_closed` holds when it is zero). -/
structure WatchChannel where
  value : TerminalSize
  version : Nat
  receiverCount : Nat
deriving DecidableEq, Repr

/-- A `watch` receiver: the channel version it has last observed;
`changed()` resolves exactly when the channel version differs from it. -/
structure WatchReceiver where
  seen : Nat
deriving DecidableEq, Repr

/-- Whether `changed()` would deliver a notification to this receiver. -/
def hasChanged (ch : WatchChannel) (rx : WatchReceiver) : Bool :=
  decide (rx.seen ≠ ch.version)

/-- `Sender::send_replace`: store the value and notify all receivers
unconditionally (the version always advances). -/
def sendReplace (ch : WatchChannel) (v : TerminalSize) : WatchChannel :=
  { ch with value := v, version := ch.version + 1 }

/-- `Sender::send_if_modified` with the closure from src/windows.rs
`spawn_on_resize_task`: overwrite and notify only when the queried size
differs from the stored one. -/
def sendIfModifiedResize (ch : WatchChannel) (v : TerminalSize) : WatchChannel :=
  if ch.value ≠ v then { ch with value := v, version := ch.version + 1 } else ch

/-- One iteration body of the POSIX watcher loop (src/unix.rs
`spawn_on_resize_task`), entered after a SIGWINCH delivery: re-query size
and, when the query succeeds, `send_replace` the result; a failed query is
skipped. -/
def unixSignalIteration (sizeResult : Except Unit TerminalSize)
    (ch : WatchChannel) : WatchChannel :=
  match sizeResult with
  | Except.ok s => sendReplace ch s
  | Except.error _ => ch

/-- One tick body of the Windows watcher loop (src/windows.rs
`spawn_on_resize_task`), run between the `is_closed` check and the 1s
sleep: re-query size and, when the query succeeds, `send_if_modified` the
result; a failed query is skipped. -/
def windowsTickBody (sizeResult : Except Unit TerminalSize)
    (ch : WatchChannel) : WatchChannel :=
  match sizeResult with
  | Except.ok s => sendIfModifiedResize ch s
  | Except.error _ => ch

/-- Result of one pass through a watcher loop: either the loop broke, or it
continues with the channel in a new state. -/
inductive LoopStep where
  | done : LoopStep
  | next : WatchChannel → LoopStep
deriving DecidableEq, Repr

/-- One pass of the POSIX watcher loop: the body has no exit condition, so
the loop always continues. -/
def unixLoopStep (sizeResult : Except Unit TerminalSize)
    (ch : WatchChannel) : LoopStep :=
  LoopStep.next (unixSignalIteration sizeResult ch)

/-- One pass of the Windows watcher loop: break when `tx.is_closed()` (no
receivers left), otherwise run the tick body and continue. -/
def windowsLoopStep (sizeResult : Except Unit TerminalSize)
    (ch : WatchChannel) : LoopStep :=
  if ch.receiverCount = 0 then LoopStep.done
  else LoopStep.next (windowsTickBody sizeResult ch)

/-- Drive a watcher loop through one pass per entry of a list of size-query
outcomes; `true` while no pass has broken out of the loop. -/
def stepsAlive (step : Except Unit TerminalSize → WatchChannel → LoopStep) :
    List (Except Unit TerminalSize) → WatchChannel → Bool
  | [], _ => true
  | s :: rest, ch =>
    match step s ch with
    | LoopStep.done => false
    | LoopStep.next ch2 => stepsAlive step rest ch2

/-- The tokio `JoinHandle` returned by `spawn_on_resize_task`. -/
structure JoinHandle where
  taskId : Nat
deriving DecidableEq, Repr

/-- src/unix.rs `spawn_on_resize_task`: subscribing to SIGWINCH can fail;
on success the spawned task's handle is returned. -/
def spawn_on_resize_task_unix (signalOk : Bool) : Except Unit JoinHandle :=
  if signalOk then Except.ok ⟨0⟩ else Except.error ()

/-- src/lib.rs `on_resize` over the POSIX driver: seed a watch channel with
an initial `size()` (propagating its error), spawn the watcher task with
`spawn_on_resize_task(tx)?` — whose `JoinHandle` is discarded by the `?;`
statement — and hand the caller only the receiver. -/
def on_resize_unix (env : Unix.SysEnv) (signalOk : Bool) :
    Except Unit (WatchChannel × WatchReceiver) :=
  match Unix.size env with
  | Except.error e => Except.error e
  | Except.ok sz =>
    match spawn_on_resize_task_unix signalOk with
    | Except.error e => Except.error e
    | Except.ok _h => Except.ok (⟨sz, 0, 1⟩, ⟨0⟩)

/-- Bit-level reading of a mask test: `m &&& n = 0` says every bit set in
`n` is clear in `m`. -/
theorem and_eq_zero_iff_testBit (m n : Nat) :
    m &&& n = 0 ↔ ∀ i, n.testBit i = true → m.testBit i = false := by
  constructor
  · intro h i hn
    have h2 : (m &&& n).testBit i = false := by rw [h]; exact Nat.zero_testBit i
    rw [Nat.testBit_and, hn, Bool.and_true] at h2
    exact h2
  · intro h
    apply Nat.eq_of_testBit_eq
    intro i
    rw [Nat.testBit_and, Nat.zero_testBit]
    cases hn : n.testBit i
    · simp
    · simp [h i hn]

/-- Bit-level reading of a mask test: `m &&& n = n` says every bit set in
`n` is also set in `m`. -/
theorem and_eq_self_iff_testBit (m n : Nat) :
    m &&& n = n ↔ ∀ i, n.testBit i = true → m.testBit i = true := by
  constructor
  · intro h i hn
    have h2 : (m &&& n).testBit i = n.testBit i := by rw [h]
    rw [Nat.testBit_and, hn, Bool.and_true] at h2
    exact h2
  · intro h
    apply Nat.eq_of_testBit_eq
    intro i
    rw [Nat.testBit_and]
    cases hn : n.testBit i
    · simp
    · simp [h i hn]

/-- C4: `is_raw_mode_enabled` returns exactly the platform predicate on the
queried mode; on POSIX that predicate holds iff the ICANON bit (bit 1 of
`c_lflag`) is clear, and on Windows it holds iff every bit of
`RAW_MODE_MASK` is set and no bit of `NOT_RAW_MODE_MASK` is set. -/
theorem is_raw_mode_enabled_predicate (t : Unix.Termios) (m : Nat)
    (envU : Unix.SysEnv) (envW : Windows.SysEnv)
    (hu1 : envU.ttyOk = true) (hu2 : envU.getAttrOk = true)
    (hw1 : envW.conInOk = true) (hw2 : envW.getModeOk = true) :
    Unix.is_raw_mode_enabled envU t = Except.ok (Unix.canonCleared t) ∧
    (Unix.canonCleared t = true ↔ t.c_lflag.testBit 1 = false) ∧
    Windows.is_raw_mode_enabled envW m = Except.ok (Windows.rawModePredicate m) ∧
    (Windows.rawModePredicate m = true ↔
      ((∀ i, Windows.RAW_MODE_MASK.testBit i = true → m.testBit i = true) ∧
       (∀ i, Windows.NOT_RAW_MODE_MASK.testBit i = true → m.testBit i = false))) := by
  refine ⟨by simp [Unix.is_raw_mode_enabled, hu1, hu2], ?_,
    by simp [Windows.is_raw_mode_enabled, hw1, hw2], ?_⟩
  · unfold Unix.canonCleared Unix.ICANON
    rw [decide_eq_true_eq, and_eq_zero_iff_testBit]
    constructor
    · intro h
      exact h 1 (by decide)
    · intro h i hi
      have h2 : (2 : Nat) = 2 ^ 1 := by norm_num
      rw [h2, Nat.testBit_two_pow] at hi
      have h3 : (1 : Nat) = i := of_decide_eq_true hi
      rw [← h3]
      exact h
  · unfold Windows.rawModePredicate
    rw [Bool.and_eq_true, decide_eq_true_eq, decide_eq_true_eq,
      and_eq_zero_iff_testBit, and_eq_self_iff_testBit]
    exact and_comm

/-- C4 witness: the concrete mode `736` (exactly the raw bit-set) evaluated
through `is_raw_mode_enabled` on an all-succeeding environment. -/
theorem is_raw_mode_enabled_predicate_witness :
    Windows.is_raw_mode_enabled ⟨true, true, true, true, true, ⟨0, 0, 79, 23⟩⟩ 736 =
      Except.ok (Windows.rawModePredicate 736) ∧
    Unix.is_raw_mode_enabled ⟨true, true, true, true, ⟨24, 80, 0, 0⟩⟩ ⟨0, 0, 0, 0, [], 0, 0⟩ =
      Except.ok (Unix.canonCleared ⟨0, 0, 0, 0, [], 0, 0⟩) := by
  have h := is_raw_mode_enabled_predicate ⟨0, 0, 0, 0, [], 0, 0⟩ 736
    ⟨true, true, true, true, ⟨24, 80, 0, 0⟩⟩ ⟨true, true, true, true, true, ⟨0, 0, 79, 23⟩⟩
    rfl rfl rfl rfl
  exact ⟨h.2.2.1, h.1⟩

/-- C5: on Windows, `enable_raw_mode` applies `m & !NOT_RAW_MODE_MASK |
RAW_MODE_MASK`: bit by bit, every raw-mask bit is set, every cooked-mask bit
is cleared, and every other bit keeps its original value. -/
theorem enable_raw_mode_windows_bit_frame (m i : Nat) (hm : m < 4294967296) :
    (Windows.newModeOf m).testBit i =
      (Windows.RAW_MODE_MASK.testBit i ||
        (m.testBit i && !Windows.NOT_RAW_MODE_MASK.testBit i)) := by
  unfold Windows.newModeOf Windows.complement32
  have h1 : (4294967295 : Nat) = 2 ^ 32 - 1 := by norm_num
  rw [Nat.testBit_or, Nat.testBit_and, Nat.testBit_xor, h1,
    Nat.testBit_two_pow_sub_one]
  by_cases hi : i < 32
  · simp only [hi, decide_True, Bool.xor_true]
    exact Bool.or_comm _ _
  · have h32 : (2 : Nat) ^ 32 ≤ 2 ^ i :=
      Nat.pow_le_pow_right (by norm_num) (Nat.le_of_not_lt hi)
    have hmf : m.testBit i = false :=
      Nat.testBit_lt_two_pow (lt_of_lt_of_le hm h32)
    have hrf : Windows.RAW_MODE_MASK.testBit i = false :=
      Nat.testBit_lt_two_pow (lt_of_lt_of_le (by decide) h32)
    have hnf : Windows.NOT_RAW_MODE_MASK.testBit i = false :=
      Nat.testBit_lt_two_pow (lt_of_lt_of_le (by decide) h32)
    simp [hi, hmf, hrf, hnf]

/-- C5 witness: mode `3` (line input and processed input set) at bit 1. -/
theorem enable_raw_mode_windows_bit_frame_witness :
    (Windows.newModeOf 3).testBit 1 =
      (Windows.RAW_MODE_MASK.testBit 1 ||
        ((3 : Nat).testBit 1 && !Windows.NOT_RAW_MODE_MASK.testBit 1)) :=
  enable_raw_mode_windows_bit_frame 3 1 (by norm_num)

/-- C6: a successful `size()` returns exactly the kernel winsize fields on
POSIX, and `right - left + 1` by `bottom - top + 1` with zero pixel fields
on Windows. -/
theorem size_fields_exact (envU : Unix.SysEnv) (envW : Windows.SysEnv)
    (hu1 : envU.ttyOk = true) (hu2 : envU.winszOk = true)
    (hw1 : envW.conOutOk = true) (hw2 : envW.bufInfoOk = true)
    (hwlo : 0 ≤ envW.srWindow.Right - envW.srWindow.Left + 1)
    (hwhi : envW.srWindow.Right - envW.srWindow.Left + 1 < 65536)
    (hhlo : 0 ≤ envW.srWindow.Bottom - envW.srWindow.Top + 1)
    (hhhi : envW.srWindow.Bottom - envW.srWindow.Top + 1 < 65536) :
    Unix.size envU = Except.ok
      ⟨envU.winsz.ws_col, envU.winsz.ws_row, envU.winsz.ws_xpixel, envU.winsz.ws_ypixel⟩ ∧
    Windows.size envW = Except.ok
      ⟨(envW.srWindow.Right - envW.srWindow.Left + 1).toNat,
       (envW.srWindow.Bottom - envW.srWindow.Top + 1).toNat, 0, 0⟩ := by
  constructor
  · simp [Unix.size, hu1, hu2]
  · unfold Windows.size Windows.asU16
    rw [hw1, hw2]
    simp only [if_true]
    rw [Int.emod_eq_of_lt hwlo hwhi, Int.emod_eq_of_lt hhlo hhhi]

/-- C6 witness, scenario 1: a terminal reporting 80 columns by 24 rows with
no pixel data yields `{80, 24, 0, 0}` on both drivers. -/
theorem size_fields_exact_witness :
    Unix.size ⟨true, true, true, true, ⟨24, 80, 0, 0⟩⟩ = Except.ok ⟨80, 24, 0, 0⟩ ∧
    Windows.size ⟨true, true, true, true, true, ⟨0, 0, 79, 23⟩⟩ = Except.ok ⟨80, 24, 0, 0⟩ := by
  have h := size_fields_exact ⟨true, true, true, true, ⟨24, 80, 0, 0⟩⟩
    ⟨true, true, true, true, true, ⟨0, 0, 79, 23⟩⟩ rfl rfl rfl rfl
    (by norm_num) (by norm_num) (by norm_num) (by norm_num)
  exact ⟨h.1, h.2⟩

/-- C1 counterexample: the POSIX watcher delivers a redundant notification.
The channel holds `{80,24,0,0}` and the subscriber is up to date; the signal
iteration re-queries `size()` and gets the identical `{80,24,0,0}`, yet
`send_replace` advances the version and the subscriber is notified again. -/
theorem resize_redundant_publish_counterexample :
    hasChanged ⟨⟨80, 24, 0, 0⟩, 0, 1⟩ ⟨0⟩ = false ∧
    unixSignalIteration (Except.ok ⟨80, 24, 0, 0⟩) ⟨⟨80, 24, 0, 0⟩, 0, 1⟩ =
      ⟨⟨80, 24, 0, 0⟩, 1, 1⟩ ∧
    hasChanged (unixSignalIteration (Except.ok ⟨80, 24, 0, 0⟩) ⟨⟨80, 24, 0, 0⟩, 0, 1⟩) ⟨0⟩ =
      true :=
  ⟨rfl, rfl, rfl⟩

/-- C1 amended: only the Windows polling watcher suppresses no-op publishes
— its `send_if_modified` tick notifies an up-to-date subscriber exactly when
the re-queried size differs from the channel value — while the POSIX
signal-driven watcher publishes with `send_replace` on every delivery,
advancing the channel version (and so notifying subscribers) even when the
re-queried size equals the current value. -/
theorem resize_publish_suppression_amended (ch : WatchChannel) (s : TerminalSize)
    (rx : WatchReceiver) (h : hasChanged ch rx = false) :
    (hasChanged (windowsTickBody (Except.ok s) ch) rx = true ↔ s ≠ ch.value) ∧
    (unixSignalIteration (Except.ok s) ch).version = ch.version + 1 ∧
    (unixSignalIteration (Except.ok s) ch).value = s := by
  have hseen : rx.seen = ch.version := by
    have h2 := of_decide_eq_false h
    omega
  refine ⟨?_, rfl, rfl⟩
  have hbody : windowsTickBody (Except.ok s) ch = sendIfModifiedResize ch s := rfl
  rw [hbody]
  unfold sendIfModifiedResize
  by_cases hv : ch.value = s
  · rw [if_neg (not_not_intro hv)]
    rw [h]
    simp [hv.symm]
  · rw [if_pos hv]
    have h1 : hasChanged
        { ch with value := s, version := ch.version + 1 } rx = true := by
      unfold hasChanged
      rw [hseen]
      simp
    rw [h1]
    simp only [true_iff]
    exact fun hh => hv hh.symm

/-- C1 amended witness: channel at `{80,24,0,0}`, up-to-date subscriber, a
differing re-queried size `{100,30,0,0}`. -/
theorem resize_publish_suppression_amended_witness :
    (hasChanged (windowsTickBody (Except.ok ⟨100, 30, 0, 0⟩) ⟨⟨80, 24, 0, 0⟩, 0, 1⟩) ⟨0⟩ =
        true ↔ (⟨100, 30, 0, 0⟩ : TerminalSize) ≠ (⟨80, 24, 0, 0⟩ : TerminalSize)) ∧
    (unixSignalIteration (Except.ok ⟨100, 30, 0, 0⟩) ⟨⟨80, 24, 0, 0⟩, 0, 1⟩).version = 0 + 1 ∧
    (unixSignalIteration (Except.ok ⟨100, 30, 0, 0⟩) ⟨⟨80, 24, 0, 0⟩, 0, 1⟩).value =
      ⟨100, 30, 0, 0⟩ :=
  resize_publish_suppression_amended ⟨⟨80, 24, 0, 0⟩, 0, 1⟩ ⟨100, 30, 0, 0⟩ ⟨0⟩ rfl

/-- C2: round trip.  `enable_raw_mode` captures the pre-existing mode as the
restore token, and restoring that token — directly through `restore_mode` or
through the guard's drop — leaves a terminal on which the raw-mode predicate
evaluates exactly as it did before `enable_raw_mode`, on both drivers. -/
theorem raw_mode_round_trip (envU envU2 : Unix.SysEnv) (t : Unix.Termios)
    (envW envW2 : Windows.SysEnv) (m : Nat)
    (hu1 : envU.ttyOk = true) (hu2 : envU.getAttrOk = true) (hu3 : envU.setAttrOk = true)
    (hu4 : envU2.ttyOk = true) (hu5 : envU2.setAttrOk = true)
    (hw1 : envW.conInOk = true) (hw2 : envW.getModeOk = true) (hw3 : envW.setModeOk = true)
    (hw4 : envW2.conInOk = true) (hw5 : envW2.setModeOk = true) :
    (Unix.enable_raw_mode envU t).1 = Except.ok ⟨t⟩ ∧
    Unix.canonCleared (Unix.restore_mode envU2 ⟨t⟩ (Unix.enable_raw_mode envU t).2).2 =
      Unix.canonCleared t ∧
    Unix.canonCleared (RawModeGuard.dropUnix envU2 ⟨t⟩ (Unix.enable_raw_mode envU t).2).2 =
      Unix.canonCleared t ∧
    (Windows.enable_raw_mode envW m).1 = Except.ok ⟨m⟩ ∧
    Windows.rawModePredicate
        (Windows.restore_mode envW2 ⟨m⟩ (Windows.enable_raw_mode envW m).2).2 =
      Windows.rawModePredicate m ∧
    Windows.rawModePredicate
        (RawModeGuard.dropWindows envW2 ⟨m⟩ (Windows.enable_raw_mode envW m).2).2 =
      Windows.rawModePredicate m := by
  simp [Unix.enable_raw_mode, Unix.restore_mode, RawModeGuard.dropUnix,
    Windows.enable_raw_mode, Windows.restore_mode, RawModeGuard.dropWindows,
    hu1, hu2, hu3, hu4, hu5, hw1, hw2, hw3, hw4, hw5]

/-- C2 witness: a cooked terminal (`c_lflag = ICANON`, console mode `3`)
round-tripped through enable and restore on all-succeeding environments. -/
theorem raw_mode_round_trip_witness :
    Unix.canonCleared
        (Unix.restore_mode ⟨true, true, true, true, ⟨24, 80, 0, 0⟩⟩ ⟨⟨0, 0, 0, 2, [], 0, 0⟩⟩
          (Unix.enable_raw_mode ⟨true, true, true, true, ⟨24, 80, 0, 0⟩⟩
            ⟨0, 0, 0, 2, [], 0, 0⟩).2).2 =
      Unix.canonCleared ⟨0, 0, 0, 2, [], 0, 0⟩ ∧
    Windows.rawModePredicate
        (RawModeGuard.dropWindows ⟨true, true, true, true, true, ⟨0, 0, 79, 23⟩⟩ ⟨3⟩
          (Windows.enable_raw_mode ⟨true, true, true, true, true, ⟨0, 0, 79, 23⟩⟩ 3).2).2 =
      Windows.rawModePredicate 3 := by
  have h := raw_mode_round_trip ⟨true, true, true, true, ⟨24, 80, 0, 0⟩⟩
    ⟨true, true, true, true, ⟨24, 80, 0, 0⟩⟩ ⟨0, 0, 0, 2, [], 0, 0⟩
    ⟨true, true, true, true, true, ⟨0, 0, 79, 23⟩⟩
    ⟨true, true, true, true, true, ⟨0, 0, 79, 23⟩⟩ 3
    rfl rfl rfl rfl rfl rfl rfl rfl rfl rfl
  exact ⟨h.2.1, h.2.2.2.2.2⟩

/-- C3: `restore_mode` is idempotent on both drivers: running it a second
time with the same captured state and environment leaves the terminal in the
state the first call produced, so the second call is a no-op on the mode. -/
theorem restore_mode_idempotent (envU : Unix.SysEnv) (s : Unix.TerminalState)
    (t : Unix.Termios) (envW : Windows.SysEnv) (sw : Windows.TerminalState) (m : Nat) :
    (Unix.restore_mode envU s (Unix.restore_mode envU s t).2).2 =
      (Unix.restore_mode envU s t).2 ∧
    (Windows.restore_mode envW sw (Windows.restore_mode envW sw m).2).2 =
      (Windows.restore_mode envW sw m).2 := by
  unfold Unix.restore_mode Windows.restore_mode
  constructor
  · by_cases h1 : envU.ttyOk = true <;> by_cases h2 : envU.setAttrOk = true <;>
      simp [h1, h2]
  · by_cases h1 : envW.conInOk = true <;> by_cases h2 : envW.setModeOk = true <;>
      simp [h1, h2]

/-- C7: the Windows watcher loop breaks as soon as `tx.is_closed()` sees no
remaining receivers: with the receiver count at zero the very next pass
returns done, so the loop exits within one polling interval instead of
running forever. -/
theorem windows_watcher_self_terminates (s : Except Unit TerminalSize)
    (l : List (Except Unit TerminalSize)) (ch : WatchChannel)
    (h : ch.receiverCount = 0) :
    windowsLoopStep s ch = LoopStep.done ∧
    stepsAlive windowsLoopStep (s :: l) ch = false := by
  have h1 : windowsLoopStep s ch = LoopStep.done := by
    unfold windowsLoopStep
    simp [h]
  refine ⟨h1, ?_⟩
  simp only [stepsAlive, h1]

/-- C7 witness: a channel whose last receiver was dropped. -/
theorem windows_watcher_self_terminates_witness :
    windowsLoopStep (Except.ok ⟨80, 24, 0, 0⟩) ⟨⟨80, 24, 0, 0⟩, 0, 0⟩ = LoopStep.done ∧
    stepsAlive windowsLoopStep [Except.ok ⟨80, 24, 0, 0⟩] ⟨⟨80, 24, 0, 0⟩, 0, 0⟩ = false :=
  windows_watcher_self_terminates (Except.ok ⟨80, 24, 0, 0⟩) [] ⟨⟨80, 24, 0, 0⟩, 0, 0⟩ rfl

/-- C8: guard release.  `RawModeGuard::drop` returns unit unconditionally
(no panic or error propagation), its whole effect on the terminal is that of
the single `restore_mode` attempt it makes, and that attempt either replays
the captured state (all calls succeed) or, when the restore errors, leaves
the terminal untouched with the error discarded. -/
theorem guard_drop_discards_error (envU : Unix.SysEnv) (g : Unix.TerminalState)
    (t : Unix.Termios) (envW : Windows.SysEnv) (gw : Windows.TerminalState) (m : Nat) :
    (RawModeGuard.dropUnix envU g t).1 = () ∧
    (RawModeGuard.dropUnix envU g t).2 = (Unix.restore_mode envU g t).2 ∧
    (RawModeGuard.dropUnix envU g t).2 =
      (if envU.ttyOk = true ∧ envU.setAttrOk = true then g.termios else t) ∧
    (RawModeGuard.dropWindows envW gw m).1 = () ∧
    (RawModeGuard.dropWindows envW gw m).2 = (Windows.restore_mode envW gw m).2 ∧
    (RawModeGuard.dropWindows envW gw m).2 =
      (if envW.conInOk = true ∧ envW.setModeOk = true then gw.mode else m) := by
  refine ⟨rfl, rfl, ?_, rfl, rfl, ?_⟩
  · unfold RawModeGuard.dropUnix Unix.restore_mode
    by_cases h1 : envU.ttyOk = true <;> by_cases h2 : envU.setAttrOk = true <;>
      simp [h1, h2]
  · unfold RawModeGuard.dropWindows Windows.restore_mode
    by_cases h1 : envW.conInOk = true <;> by_cases h2 : envW.setModeOk = true <;>
      simp [h1, h2]

/-- C9: `enable_raw_mode` is atomic on error, on both drivers: either it
succeeds (returning the captured pre-state), or the terminal mode is exactly
what it was; moreover the terminal after the call is only ever the original
mode or the fully applied raw mode — there is no partial mutation. -/
theorem enable_raw_mode_atomic_on_error (envU : Unix.SysEnv) (t : Unix.Termios)
    (envW : Windows.SysEnv) (m : Nat) :
    ((Unix.enable_raw_mode envU t).1 = Except.ok ⟨t⟩ ∨
      (Unix.enable_raw_mode envU t).2 = t) ∧
    ((Unix.enable_raw_mode envU t).2 = t ∨
      (Unix.enable_raw_mode envU t).2 = Unix.cfmakeraw t) ∧
    ((Windows.enable_raw_mode envW m).1 = Except.ok ⟨m⟩ ∨
      (Windows.enable_raw_mode envW m).2 = m) ∧
    ((Windows.enable_raw_mode envW m).2 = m ∨
      (Windows.enable_raw_mode envW m).2 = Windows.newModeOf m) := by
  unfold Unix.enable_raw_mode Windows.enable_raw_mode
  by_cases h1 : envU.ttyOk = true <;> by_cases h2 : envU.getAttrOk = true <;>
    by_cases h3 : envU.setAttrOk = true <;>
    by_cases h4 : envW.conInOk = true <;> by_cases h5 : envW.getModeOk = true <;>
    by_cases h6 : envW.setModeOk = true <;>
    simp [h1, h2, h3, h4, h5, h6]

/-- C10: the POSIX watcher loop has no exit condition: every pass continues,
any run of passes stays alive, and even a channel whose receiver count is
zero still gets a `send_replace` publish — the loop never checks for
subscribers, and `on_resize` (see `on_resize_unix`) discards the spawned
task's `JoinHandle`, returning only the receiver. -/
theorem unix_watcher_never_terminates (s : Except Unit TerminalSize)
    (l : List (Except Unit TerminalSize)) (ch : WatchChannel)
    (v : TerminalSize) (n : Nat) (sz : TerminalSize) :
    unixLoopStep s ch ≠ LoopStep.done ∧
    stepsAlive unixLoopStep l ch = true ∧
    unixLoopStep (Except.ok sz) ⟨v, n, 0⟩ = LoopStep.next (sendReplace ⟨v, n, 0⟩ sz) := by
  refine ⟨by simp [unixLoopStep], ?_, rfl⟩
  induction l generalizing ch with
  | nil => rfl
  | cons a rest ih =>
    simp only [stepsAlive, unixLoopStep]
    exact ih _

end TerminalUtils
